import Mathlib

/-!
Shallow embedding of the J2ME Loader for KaiOS repository (src/js),
covering the emulator core (emulator-core.js), the storage layer
(storage.js), the app catalog database (database.js) and the application
shell orchestration (app.js), together with proofs of lifecycle,
error-handling and persistence properties.

Asynchronous JavaScript operations are modelled as pure state-passing
functions: each operation takes the relevant state and returns the new
state together with an `Except String` result (the promise's resolution
or rejection).  Outcomes of host/platform calls (FileReader reads,
DeviceStorage addNamed/delete, IndexedDB requests) are supplied as
explicit boolean parameters, since the JavaScript code observes them only
through success/error callbacks.
-/

deriving instance DecidableEq for Except

namespace J2MELoader

/-! ### MIDlet metadata (emulator-core.js, parseMidletInfo) -/

structure MidletInfo where
  name : String
  version : String
  vendor : String
  description : String
  mainClass : String
deriving Repr, DecidableEq

/-- Embeds `filename.replace(/\.jar$/i, '')`: strips a trailing ".jar"
extension, case-insensitively. -/
def stripJarExt (filename : String) : String :=
  if filename.toLower.endsWith ".jar" then filename.dropRight 4 else filename

/-- Embeds `appName.replace(/[^a-zA-Z0-9]/g, '')`: keeps only ASCII
letters and digits. -/
def alphanumOnly (s : String) : String :=
  String.mk (s.data.filter fun c => c.isAlphanum)

/-- Embeds `parseMidletInfo` from emulator-core.js.  The JS function
always resolves (the icon and permissions fields, constant `null` and
`[]`, are omitted). -/
def parseMidletInfo (filename : String) : MidletInfo :=
  let appName := stripJarExt filename
  { name := appName
    version := "1.0"
    vendor := "Unknown"
    description := appName ++ " MIDlet"
    mainClass := alphanumOnly appName ++ "Midlet" }

/-! ### JAR file handles -/

/-- A JAR `File` handle.  `readOk` records whether the host FileReader
read of this file succeeds (`reader.onload`) or fails (`reader.onerror`). -/
structure JarFile where
  name : String
  readOk : Bool
deriving Repr, DecidableEq

/-! ### Key state: a JavaScript object mapping key identifiers to
booleans, modelled as an insertion-ordered association list. -/

abbrev KeyState := List (String × Bool)

/-- Property write `obj[k] = v` on a JS object: update in place if the
key exists, otherwise append. -/
def kvSet (m : KeyState) (k : String) (v : Bool) : KeyState :=
  match m with
  | [] => [(k, v)]
  | (k', v') :: rest => if k' = k then (k', v) :: rest else (k', v') :: kvSet rest k v

/-- Property read `obj[k]` on a JS object (`none` = undefined). -/
def kvGet (m : KeyState) (k : String) : Option Bool :=
  match m with
  | [] => none
  | (k', v') :: rest => if k' = k then some v' else kvGet rest k

/-- Embeds `resetKeyState` from emulator-core.js: the 17-entry
virtual-keypad object with every key released. -/
def initialKeyState : KeyState :=
  [("UP", false), ("DOWN", false), ("LEFT", false), ("RIGHT", false),
   ("SELECT", false),
   ("1", false), ("2", false), ("3", false), ("4", false), ("5", false),
   ("6", false), ("7", false), ("8", false), ("9", false),
   ("STAR", false), ("0", false), ("POUND", false)]

/-! ### Emulator core state (emulator-core.js, emulatorCoreState) -/

/-- The mutable global `emulatorCoreState`.  `canvas` records whether a
canvas element is attached; `canvasWidth`/`canvasHeight` its dimensions;
`frameInterval` the interval handle returned by `setInterval` (`none` =
null); `nextTimer` models the host's monotonically increasing interval
handle counter.  The Java heap/stack/thread placeholders are carried as
lists so that teardown effects are visible. -/
structure EmulatorCoreState where
  initialized : Bool
  running : Bool
  jarFile : Option JarFile
  midletInfo : Option MidletInfo
  canvas : Bool
  canvasWidth : Nat
  canvasHeight : Nat
  screenWidth : Nat
  screenHeight : Nat
  keyState : KeyState
  frameInterval : Option Nat
  nextTimer : Nat
  fps : Nat
  javaClasses : List String
  javaHeap : List Nat
  javaStack : List Nat
  javaThreads : List Nat
deriving Repr, DecidableEq

/-- The initial value of `emulatorCoreState` in emulator-core.js. -/
def initialCoreState : EmulatorCoreState :=
  { initialized := false
    running := false
    jarFile := none
    midletInfo := none
    canvas := false
    canvasWidth := 0
    canvasHeight := 0
    screenWidth := 240
    screenHeight := 320
    keyState := []
    frameInterval := none
    nextTimer := 0
    fps := 30
    javaClasses := []
    javaHeap := []
    javaStack := []
    javaThreads := [] }

/-- The fixed class list installed by `loadJavaClassLibrary`. -/
def javaClassLibrary : List String :=
  ["java.lang.Object", "java.lang.String",
   "javax.microedition.midlet.MIDlet",
   "javax.microedition.lcdui.Display",
   "javax.microedition.lcdui.Canvas",
   "javax.microedition.lcdui.Graphics",
   "javax.microedition.lcdui.Font",
   "javax.microedition.lcdui.Image",
   "javax.microedition.lcdui.game.GameCanvas",
   "javax.microedition.lcdui.game.Sprite",
   "javax.microedition.media.Manager",
   "javax.microedition.media.Player",
   "javax.microedition.rms.RecordStore"]

/-- Embeds `initEmulatorCore`.  `hasCanvas` is whether the canvas
argument is non-null.  `loadJavaClassLibrary` and `initializeJavaVM`
always resolve in the source, so the only rejection is the missing
canvas. -/
def initEmulatorCore (hasCanvas : Bool) (s : EmulatorCoreState) :
    EmulatorCoreState × Except String Unit :=
  if !hasCanvas then (s, .error "Canvas element is required")
  else
    let s := { s with canvas := true
                      canvasWidth := s.screenWidth
                      canvasHeight := s.screenHeight
                      keyState := initialKeyState }
    let s := { s with javaClasses := javaClassLibrary }
    ({ s with initialized := true }, .ok ())

/-- Embeds `loadJarFile`.  Note that the source assigns
`emulatorCoreState.jarFile = jarFile` immediately after the
`initialized` check, before the FileReader read, and no failure path
clears it.  `parseMidletInfo` always resolves, so the failure after the
assignment is a FileReader read error. -/
def loadJarFile (jar : JarFile) (s : EmulatorCoreState) :
    EmulatorCoreState × Except String MidletInfo :=
  if !s.initialized then (s, .error "Emulator core not initialized")
  else
    let s := { s with jarFile := some jar }
    if jar.readOk then
      let mi := parseMidletInfo jar.name
      ({ s with midletInfo := some mi }, .ok mi)
    else
      (s, .error "Failed to read JAR file")

/-- Options object passed to `startEmulator`.  The source reads
`options.screenWidth`, `options.screenHeight` and `options.fps` with a
JS truthiness check, so `some 0` behaves like `none`. -/
structure StartOptions where
  screenWidth : Option Nat
  screenHeight : Option Nat
  fps : Option Nat
deriving Repr, DecidableEq

/-- JS `if (options.field) state.field = options.field`: applied only
when present and non-zero (0 is falsy). -/
def applyOpt (cur : Nat) : Option Nat → Nat
  | some n => if n = 0 then cur else n
  | none => cur

/-- Embeds `startRenderLoop`: clears any existing interval and installs
a fresh one. -/
def startRenderLoop (s : EmulatorCoreState) : EmulatorCoreState :=
  { s with frameInterval := some s.nextTimer
           nextTimer := s.nextTimer + 1 }

/-- Embeds `startEmulator`.  The two precondition rejections occur
before any mutation.  After them, the source applies the options,
resizes the canvas and clears the Java environment; `startMainMidlet`
then dereferences `emulatorCoreState.midletInfo.mainClass`, which throws
a TypeError (rejecting the promise) when `midletInfo` is null; otherwise
it always resolves, the render loop starts and `running` is set. -/
def startEmulator (opts : StartOptions) (s : EmulatorCoreState) :
    EmulatorCoreState × Except String Unit :=
  if !s.initialized then (s, .error "Emulator core not initialized")
  else if s.jarFile.isNone then (s, .error "No JAR file loaded")
  else
    let s := { s with screenWidth := applyOpt s.screenWidth opts.screenWidth
                      screenHeight := applyOpt s.screenHeight opts.screenHeight
                      fps := applyOpt s.fps opts.fps }
    let s := { s with canvasWidth := s.screenWidth
                      canvasHeight := s.screenHeight }
    let s := { s with javaHeap := [], javaStack := [], javaThreads := [] }
    match s.midletInfo with
    | none => (s, .error "TypeError: cannot read mainClass of null")
    | some _ =>
        let s := startRenderLoop s
        ({ s with running := true }, .ok ())

/-- Embeds `stopEmulator`.  The promise always resolves; the returned
natural number counts the calls made to `cleanupJavaEnvironment`
(the runtime teardown), for the at-most-once teardown property. -/
def stopEmulator (s : EmulatorCoreState) : EmulatorCoreState × Nat :=
  if !s.running then (s, 0)
  else
    let s := { s with frameInterval := none }
    let s := { s with javaHeap := [], javaStack := [], javaThreads := [] }
    let s := { s with running := false
                      jarFile := none
                      midletInfo := none
                      keyState := initialKeyState }
    (s, 1)

/-- Embeds `handleKeyDown`: a no-op unless running, otherwise records
the key as pressed in the key-state object. -/
def handleKeyDown (k : String) (s : EmulatorCoreState) : EmulatorCoreState :=
  if !s.running then s else { s with keyState := kvSet s.keyState k true }

/-- Embeds `handleKeyUp`: a no-op unless running, otherwise records the
key as released in the key-state object. -/
def handleKeyUp (k : String) (s : EmulatorCoreState) : EmulatorCoreState :=
  if !s.running then s else { s with keyState := kvSet s.keyState k false }

/-! ### Sequences of emulator-core operations -/

/-- The externally callable emulator-core operations
(window.EmulatorCore exports). -/
inductive CoreOp
  | init (hasCanvas : Bool)
  | loadJar (jar : JarFile)
  | start (opts : StartOptions)
  | stop
  | keyDown (k : String)
  | keyUp (k : String)
deriving Repr, DecidableEq

/-- State effect of one operation (results discarded). -/
def applyOp (op : CoreOp) (s : EmulatorCoreState) : EmulatorCoreState :=
  match op with
  | .init hasCanvas => (initEmulatorCore hasCanvas s).1
  | .loadJar jar => (loadJarFile jar s).1
  | .start opts => (startEmulator opts s).1
  | .stop => (stopEmulator s).1
  | .keyDown k => handleKeyDown k s
  | .keyUp k => handleKeyUp k s

/-- Runs a sequence of operations from a state. -/
def runOps (ops : List CoreOp) (s : EmulatorCoreState) : EmulatorCoreState :=
  ops.foldl (fun st op => applyOp op st) s

/-! ### Per-app settings (storage.js) -/

/-- The settings object produced by `getDefaultSettings` and saved by
the settings form (app.js saveAppSettings). -/
structure SettingsObj where
  screenSize : String
  orientation : String
  fontSize : String
  soundEnabled : Bool
  keyMapping : List (String × String)
deriving Repr, DecidableEq

/-- Embeds `getDefaultKeyMapping` (identical in storage.js and app.js). -/
def getDefaultKeyMapping : List (String × String) :=
  [("ArrowUp", "UP"), ("ArrowDown", "DOWN"), ("ArrowLeft", "LEFT"),
   ("ArrowRight", "RIGHT"), ("Enter", "SELECT"),
   ("1", "1"), ("2", "2"), ("3", "3"), ("4", "4"), ("5", "5"),
   ("6", "6"), ("7", "7"), ("8", "8"), ("9", "9"),
   ("*", "STAR"), ("0", "0"), ("#", "POUND")]

/-- Embeds `getDefaultSettings` from storage.js. -/
def getDefaultSettings : SettingsObj :=
  { screenSize := "original"
    orientation := "auto"
    fontSize := "medium"
    soundEnabled := true
    keyMapping := getDefaultKeyMapping }

/-- Content of a file in the config directory, as observed through
`JSON.parse` in `loadAppSettings`: either content that parses to a
settings object (what `JSON.stringify` of a settings object produces),
or content on which `JSON.parse` throws. -/
inductive StoredBlob
  | json (v : SettingsObj)
  | malformed (raw : String)
deriving Repr, DecidableEq

/-- The DeviceStorage file system, restricted to the settings files:
an association from paths to file contents (unique paths). -/
abbrev FileStore := List (String × StoredBlob)

/-- Looks a path up in the store (DeviceStorage `get`: `none` = the
request errors with file-not-found). -/
def storeGet (store : FileStore) (path : String) : Option StoredBlob :=
  match store with
  | [] => none
  | (p, b) :: rest => if p = path then some b else storeGet rest path

/-- Embeds DeviceStorage `addNamed`: fails when the path already exists;
`envOk` is whether the host write itself succeeds.  Returns the new
store and the request's success flag. -/
def addNamed (store : FileStore) (blob : StoredBlob) (path : String) (envOk : Bool) :
    FileStore × Bool :=
  if (storeGet store path).isSome then (store, false)
  else if envOk then ((path, blob) :: store, true)
  else (store, false)

/-- Embeds `deleteFile` from storage.js over the modelled store:
DeviceStorage `delete` succeeds only when the file exists and the host
delete (`envOk`) succeeds; on failure the store is unchanged. -/
def deleteFile (store : FileStore) (path : String) (envOk : Bool) :
    FileStore × Bool :=
  if (storeGet store path).isSome && envOk then
    (store.filter fun e => !(e.1 = path), true)
  else (store, false)

/-- The settings file path used by save/loadAppSettings:
`${storageState.configDirectory}${appId}.json`. -/
def configPath (appId : String) : String :=
  "j2me-loader/config/" ++ appId ++ ".json"

/-- Embeds `saveAppSettings` from storage.js: deletes any existing
settings file (errors ignored), then `addNamed`s the JSON-serialized
settings.  Resolves iff the add succeeds. -/
def saveAppSettings (store : FileStore) (appId : String) (settings : SettingsObj)
    (deleteEnvOk addEnvOk : Bool) : FileStore × Except String Unit :=
  let path := configPath appId
  let store1 := (deleteFile store path deleteEnvOk).1
  let (store2, ok) := addNamed store1 (.json settings) path addEnvOk
  if ok then (store2, .ok ())
  else (store2, .error ("Failed to save settings for app: " ++ appId))

/-- Embeds `loadAppSettings` from storage.js: when `getFile` fails (no
record), resolves with the defaults; when the file exists, resolves with
the parsed settings, or rejects when `JSON.parse` throws. -/
def loadAppSettings (store : FileStore) (appId : String) :
    Except String SettingsObj :=
  match storeGet store (configPath appId) with
  | none => .ok getDefaultSettings
  | some (.json v) => .ok v
  | some (.malformed _) => .error ("Failed to parse settings for app: " ++ appId)

/-! ### App catalog database (database.js) -/

/-- An installed-app record kept in the IndexedDB apps store. -/
structure PackageRecord where
  id : String
  name : String
  path : String
  size : String
  vendor : String
deriving Repr, DecidableEq

/-- The apps object store, keyed by `id` (unique ids). -/
abbrev Catalog := List PackageRecord

/-- Embeds `getAppData`: rejects when the database handle is null, or
when no record has the requested id. -/
def getAppData (db : Option Catalog) (appId : String) :
    Except String PackageRecord :=
  match db with
  | none => .error "Database not initialized"
  | some cat =>
      match cat.find? (fun r => r.id = appId) with
      | some r => .ok r
      | none => .error ("App not found: " ++ appId)

/-- Embeds `deleteAppData`: removes the record with the given id
(IndexedDB `delete` succeeds even when absent); `envOk` is whether the
IndexedDB request itself succeeds. -/
def deleteAppData (db : Option Catalog) (appId : String) (envOk : Bool) :
    Option Catalog × Except String Unit :=
  match db with
  | none => (none, .error "Database not initialized")
  | some cat =>
      if envOk then (some (cat.filter fun r => !(r.id = appId)), .ok ())
      else (some cat, .error ("Failed to delete app data for: " ++ appId))

/-- Insertion into a name-sorted list (models the
`apps.sort((a, b) => a.name.localeCompare(b.name))` in `getAllApps`). -/
def insertByName (r : PackageRecord) : List PackageRecord → List PackageRecord
  | [] => [r]
  | x :: xs => if r.name ≤ x.name then r :: x :: xs else x :: insertByName r xs

/-- Name sort used by `getAllApps`. -/
def sortByName (cat : Catalog) : List PackageRecord :=
  cat.foldr insertByName []

/-- Embeds `getAllApps`: every record, sorted by name. -/
def getAllApps (db : Option Catalog) : Except String (List PackageRecord) :=
  match db with
  | none => .error "Database not initialized"
  | some cat => .ok (sortByName cat)

/-! ### Application shell (app.js) -/

/-- The store of JAR payload blobs in DeviceStorage: paths to File
handles (`Storage.getFile` resolves with the handle when present). -/
abbrev JarStore := List (String × JarFile)

/-- Looks a JAR path up in device storage. -/
def jarGet (jars : JarStore) (path : String) : Option JarFile :=
  match jars with
  | [] => none
  | (p, j) :: rest => if p = path then some j else jarGet rest path

/-- Embeds the launch pipeline: `getAppData` for the requested id
composed with the `runSelectedApp` chain from app.js — `Storage.getFile`
on the record's path, `EmulatorCore.loadJar`, `Storage.loadAppSettings`,
then `EmulatorCore.start`.  The options object built by `runSelectedApp`
carries `screenSize`/`orientation`/`keyMapping`/`soundEnabled`, none of
which are the `screenWidth`/`screenHeight`/`fps` fields `startEmulator`
reads, so the start options are all absent.  Any rejection falls through
to the final `.catch`, which surfaces the error without further state
changes. -/
def launchApp (db : Option Catalog) (jars : JarStore) (config : FileStore)
    (appId : String) (core : EmulatorCoreState) :
    EmulatorCoreState × Except String Unit :=
  match getAppData db appId with
  | .error e => (core, .error e)
  | .ok record =>
      match jarGet jars record.path with
      | none => (core, .error ("Failed to get file: " ++ record.path))
      | some jar =>
          match loadJarFile jar core with
          | (core1, .error e) => (core1, .error e)
          | (core1, .ok _) =>
              match loadAppSettings config appId with
              | .error e => (core1, .error e)
              | .ok _ => startEmulator ⟨none, none, none⟩ core1

/-! ### App deletion (app.js deleteApp) -/

/-- Observable steps of the deletion flow, in the order they happen. -/
inductive DelEvent
  | gotRecord (id : String)
  | recordDeleted (id : String)
  | blobDeleteAttempted (path : String)
  | blobDeleted (path : String)
  | blobDeleteFailed (path : String)
deriving Repr, DecidableEq

/-- Embeds `deleteFile` over the JAR store (same storage.js function). -/
def deleteJarFile (jars : JarStore) (path : String) (envOk : Bool) :
    JarStore × Bool :=
  if (jarGet jars path).isSome && envOk then
    (jars.filter fun e => !(e.1 = path), true)
  else (jars, false)

/-- Result of the deletion flow: the new database and JAR store, the
refreshed app list and selection index, the event trace, and the
promise outcome. -/
structure DeleteResult where
  db : Option Catalog
  jars : JarStore
  appList : List PackageRecord
  selectedIndex : Int
  events : List DelEvent
  result : Except String Unit
deriving Repr, DecidableEq

/-- Embeds `loadInstalledApps`: fetches all apps; on success stores the
list and selects the first entry (or -1); its own `.catch` swallows
failures and empties the list, so the promise always resolves. -/
def loadInstalledApps (db : Option Catalog) (_appList : List PackageRecord)
    (selectedIndex : Int) : List PackageRecord × Int :=
  match getAllApps db with
  | .ok apps => (apps, if apps.length > 0 then 0 else -1)
  | .error _ => ([], selectedIndex)

/-- Embeds `deleteApp` from app.js: fetch the record, delete the catalog
record, then — only after that succeeded — attempt to delete the JAR
blob when the record has a path, with the blob-deletion failure caught
and swallowed (`console.warn`, continue); then reset the selection and
refresh the app list.  `dbDelOk`/`fileDelOk` are the host outcomes of
the two deletions. -/
def deleteApp (db : Option Catalog) (jars : JarStore)
    (appList : List PackageRecord) (selectedIndex : Int) (appId : String)
    (dbDelOk fileDelOk : Bool) : DeleteResult :=
  match getAppData db appId with
  | .error e => ⟨db, jars, appList, selectedIndex, [], .error e⟩
  | .ok appData =>
      let ev0 := [DelEvent.gotRecord appId]
      match deleteAppData db appId dbDelOk with
      | (db1, .error e) => ⟨db1, jars, appList, selectedIndex, ev0, .error e⟩
      | (db1, .ok _) =>
          let ev1 := ev0 ++ [DelEvent.recordDeleted appId]
          let att :=
            if appData.path = "" then (jars, ev1)
            else
              let (jars1, okd) := deleteJarFile jars appData.path fileDelOk
              (jars1, ev1 ++ [DelEvent.blobDeleteAttempted appData.path,
                if okd then DelEvent.blobDeleted appData.path
                else DelEvent.blobDeleteFailed appData.path])
          let (newList, newSel) := loadInstalledApps db1 appList (-1)
          ⟨db1, att.1, newList, newSel, att.2, .ok ()⟩

/-! ### Bootstrap (app.js initApp) -/

/-- Outcome of one subsystem's initialization: `result` is the
promise's settlement and `time` its settlement order stamp (earlier
settles first; equal stamps settle in the order the promises were
passed to `Promise.all`). -/
structure SubsysOutcome where
  time : Nat
  result : Except String Unit
deriving Repr, DecidableEq

/-- Whether an outcome fulfilled. -/
def SubsysOutcome.ok (o : SubsysOutcome) : Bool :=
  match o.result with
  | .ok _ => true
  | .error _ => false

/-- The failure of an outcome with its settlement stamp, if any. -/
def failOf (o : SubsysOutcome) : Option (Nat × String) :=
  match o.result with
  | .ok _ => none
  | .error e => some (o.time, e)

/-- Earlier of two optional failures; the left one wins ties (it was
attached to `Promise.all` first). -/
def earlierFail : Option (Nat × String) → Option (Nat × String) → Option (Nat × String)
  | none, y => y
  | some x, none => some x
  | some x, some y => if x.1 ≤ y.1 then some x else some y

/-- Embeds `Promise.all` over the three subsystem initializations: all
three run; the result is fulfilled iff all fulfil, and otherwise rejects
with the earliest rejection. -/
def promiseAll3 (a b c : SubsysOutcome) : Except String Unit :=
  match earlierFail (failOf a) (earlierFail (failOf b) (failOf c)) with
  | none => .ok ()
  | some (_, e) => .error e

/-- Process-wide state touched by `initApp`: whether each subsystem's
own initialization ran and whether it succeeded, plus
`appState.isInitialized`.  `Promise.all` starts all three promises
before awaiting, so every subsystem is attempted regardless of the
others' outcomes, and each subsystem's own state reflects only its own
outcome. -/
structure AppSystems where
  storageAttempted : Bool
  dbAttempted : Bool
  coreAttempted : Bool
  storageReady : Bool
  dbReady : Bool
  coreReady : Bool
  isInitialized : Bool
deriving Repr, DecidableEq

/-- Embeds the bootstrap portion of `initApp`:
`Promise.all([Storage.init(), Database.init(), EmulatorCore.init(...)])`
followed by `appState.isInitialized = true` on overall success; the
`.catch` surfaces the first error and leaves `isInitialized` false. -/
def initApp (stOut dbOut coreOut : SubsysOutcome) :
    AppSystems × Except String Unit :=
  let sys : AppSystems :=
    { storageAttempted := true
      dbAttempted := true
      coreAttempted := true
      storageReady := stOut.ok
      dbReady := dbOut.ok
      coreReady := coreOut.ok
      isInitialized := false }
  match promiseAll3 stOut dbOut coreOut with
  | .ok _ => ({ sys with isInitialized := true }, .ok ())
  | .error e => (sys, .error e)

/-! ### Shared concrete fixtures -/

/-- A JAR handle whose read succeeds. -/
def demoJar : JarFile := ⟨"Game.jar", true⟩

/-- Core state after a successful `initEmulatorCore`. -/
def coreReady : EmulatorCoreState := runOps [.init true] initialCoreState

/-- Core state after init and a successful `loadJarFile`. -/
def coreLoaded : EmulatorCoreState :=
  runOps [.init true, .loadJar demoJar] initialCoreState

/-- Core state after init, load and a successful `startEmulator`. -/
def coreRunning : EmulatorCoreState :=
  runOps [.init true, .loadJar demoJar, .start ⟨none, none, none⟩] initialCoreState

/-- The catalog record of the demo app. -/
def demoRecord : PackageRecord :=
  ⟨"app_demo_1", "Game", "j2me-loader/apps/Game.jar", "1.0 KB", "Unknown"⟩

/-! ### Helper lemmas -/

/-- Writing a key then reading it back yields the written value, for
any key string. -/
theorem kvGet_kvSet (m : KeyState) (k : String) (v : Bool) :
    kvGet (kvSet m k v) k = some v := by
  induction m with
  | nil => simp [kvSet, kvGet]
  | cons p rest ih =>
      obtain ⟨k', v'⟩ := p
      by_cases h : k' = k
      · simp [kvSet, kvGet, h]
      · simp [kvSet, kvGet, h, ih]

/-- `loadJarFile` never touches the running flag or the frame interval. -/
theorem loadJarFile_frame (j : JarFile) (s : EmulatorCoreState) :
    (loadJarFile j s).1.running = s.running ∧
    (loadJarFile j s).1.frameInterval = s.frameInterval := by
  cases hinit : s.initialized with
  | false => simp [loadJarFile, hinit]
  | true =>
      cases hr : j.readOk with
      | false => simp [loadJarFile, hinit, hr]
      | true => simp [loadJarFile, hinit, hr]

/-- On every rejection path of `startEmulator`, the running flag and
frame interval are unchanged. -/
theorem startEmulator_err (o : StartOptions) (s : EmulatorCoreState) (e : String)
    (h : (startEmulator o s).2 = .error e) :
    (startEmulator o s).1.running = s.running ∧
    (startEmulator o s).1.frameInterval = s.frameInterval := by
  cases hinit : s.initialized with
  | false => simp [startEmulator, hinit]
  | true =>
      cases hjar : s.jarFile with
      | none => simp [startEmulator, hinit, hjar]
      | some j =>
          cases hmi : s.midletInfo with
          | none => simp [startEmulator, hinit, hjar, hmi]
          | some mi =>
              exfalso
              simp [startEmulator, hinit, hjar, hmi] at h

/-! ### C2: the frame scheduler runs only while the session is running -/

/-- Every emulator-core operation preserves the scheduler/running link. -/
theorem schedInv_applyOp (op : CoreOp) (s : EmulatorCoreState)
    (h : s.frameInterval ≠ none → s.running = true) :
    (applyOp op s).frameInterval ≠ none → (applyOp op s).running = true := by
  cases op with
  | init hc =>
      cases hc with
      | false => simpa [applyOp, initEmulatorCore] using h
      | true => simpa [applyOp, initEmulatorCore] using h
  | loadJar jar =>
      have hf := loadJarFile_frame jar s
      intro hfi
      rw [applyOp] at hfi ⊢
      rw [hf.1, hf.2] at *
      exact h (by rwa [hf.2] at hfi)
  | start opts =>
      cases hinit : s.initialized with
      | false => simpa [applyOp, startEmulator, hinit] using h
      | true =>
          cases hjar : s.jarFile with
          | none => simpa [applyOp, startEmulator, hinit, hjar] using h
          | some j =>
              cases hmi : s.midletInfo with
              | none => simpa [applyOp, startEmulator, hinit, hjar, hmi] using h
              | some mi =>
                  intro _
                  simp [applyOp, startEmulator, hinit, hjar, hmi, startRenderLoop]
  | stop =>
      cases hr : s.running with
      | false => simpa [applyOp, stopEmulator, hr] using h
      | true => simp [applyOp, stopEmulator, hr]
  | keyDown k =>
      cases hr : s.running with
      | false => simpa [applyOp, handleKeyDown, hr] using h
      | true => simp [applyOp, handleKeyDown, hr]
  | keyUp k =>
      cases hr : s.running with
      | false => simpa [applyOp, handleKeyUp, hr] using h
      | true => simp [applyOp, handleKeyUp, hr]

/-- C2: for every sequence of emulator-core operations applied to the
initial `emulatorCoreState` (in particular every sequence of
`startEmulator`/`stopEmulator` calls), whenever `frameInterval` is
non-null the `running` flag is true. -/
theorem frameInterval_implies_running (ops : List CoreOp) :
    (runOps ops initialCoreState).frameInterval ≠ none →
    (runOps ops initialCoreState).running = true := by
  have main : ∀ (l : List CoreOp) (s : EmulatorCoreState),
      (s.frameInterval ≠ none → s.running = true) →
      ((runOps l s).frameInterval ≠ none → (runOps l s).running = true) := by
    intro l
    induction l with
    | nil => intro s h; exact h
    | cons op rest ih =>
        intro s h
        exact ih (applyOp op s) (schedInv_applyOp op s h)
  exact main ops initialCoreState (by intro h; exact absurd rfl h)

/-- Witness for C2 at a state whose frame interval is live. -/
theorem frameInterval_implies_running_witness :
    (runOps [.init true, .loadJar demoJar, .start ⟨none, none, none⟩]
        initialCoreState).frameInterval ≠ none ∧
    (runOps [.init true, .loadJar demoJar, .start ⟨none, none, none⟩]
        initialCoreState).running = true :=
  ⟨by decide,
   frameInterval_implies_running
     [.init true, .loadJar demoJar, .start ⟨none, none, none⟩] (by decide)⟩

/-! ### C3: stopEmulator idempotence (amended) -/

/-- C3 counterexample: from the reachable state where a JAR is loaded
but the emulator was never started, `stopEmulator` twice leaves
`jarFile` held (the not-running early return skips every clearing step),
so stopping does not always end with the package handles cleared. -/
theorem stopEmulator_not_clearing_counterexample :
    (stopEmulator (stopEmulator
        (runOps [.init true, .loadJar demoJar] initialCoreState)).1).1.jarFile
      ≠ none := by decide

/-- C3 (amended): `stopEmulator` always resolves; the second of two
consecutive calls changes no state and performs no teardown; across both
calls the runtime teardown (`cleanupJavaEnvironment`) runs at most once;
the final state is never running; and when the starting state was
running, one call clears `jarFile`, `midletInfo`, the frame interval and
performs exactly one teardown. -/
theorem stopEmulator_idempotent (s : EmulatorCoreState) :
    (stopEmulator (stopEmulator s).1).1 = (stopEmulator s).1 ∧
    (stopEmulator (stopEmulator s).1).2 = 0 ∧
    (stopEmulator s).2 ≤ 1 ∧
    (stopEmulator s).1.running = false ∧
    (s.running = true →
      (stopEmulator s).1.jarFile = none ∧
      (stopEmulator s).1.midletInfo = none ∧
      (stopEmulator s).1.frameInterval = none ∧
      (stopEmulator s).2 = 1) := by
  by_cases h : s.running = true
  · simp [stopEmulator, h]
  · have h' : s.running = false := by simpa using h
    simp [stopEmulator, h']

/-- Witness for C3 at a running state. -/
theorem stopEmulator_idempotent_witness :
    coreRunning.running = true ∧
    (stopEmulator coreRunning).1.jarFile = none ∧
    (stopEmulator coreRunning).2 = 1 := by
  refine ⟨by decide, ?_, ?_⟩
  · exact ((stopEmulator_idempotent coreRunning).2.2.2.2 (by decide)).1
  · exact ((stopEmulator_idempotent coreRunning).2.2.2.2 (by decide)).2.2.2

/-! ### C9: startEmulator precondition failures are atomic -/

/-- C9: when the core is not initialized, `startEmulator` rejects with
"Emulator core not initialized" and the whole state is unchanged; when
it is initialized but no JAR is loaded, it rejects with "No JAR file
loaded" and the whole state is unchanged. -/
theorem startEmulator_precondition_atomic (s : EmulatorCoreState)
    (opts : StartOptions) :
    (s.initialized = false →
      startEmulator opts s = (s, .error "Emulator core not initialized")) ∧
    (s.initialized = true → s.jarFile = none →
      startEmulator opts s = (s, .error "No JAR file loaded")) := by
  constructor
  · intro h; simp [startEmulator, h]
  · intro h1 h2; simp [startEmulator, h1, h2]

/-- Witness for C9 at the two rejecting states. -/
theorem startEmulator_precondition_atomic_witness :
    startEmulator ⟨none, none, none⟩ initialCoreState
      = (initialCoreState, .error "Emulator core not initialized") ∧
    startEmulator ⟨none, none, none⟩ coreReady
      = (coreReady, .error "No JAR file loaded") :=
  ⟨(startEmulator_precondition_atomic initialCoreState ⟨none, none, none⟩).1
      (by decide),
   (startEmulator_precondition_atomic coreReady ⟨none, none, none⟩).2
      (by decide) (by decide)⟩

/-! ### C10: key handlers -/

/-- C10: while not running, `handleKeyDown`/`handleKeyUp` leave the
whole state unchanged; while running, they update exactly the key-state
entry of the given key (any string, not just the 17-key vocabulary,
which is therefore recorded rather than dropped) and no other field. -/
theorem keyHandlers_effect (s : EmulatorCoreState) (k : String) :
    (s.running = false → handleKeyDown k s = s ∧ handleKeyUp k s = s) ∧
    (s.running = true →
      handleKeyDown k s = { s with keyState := kvSet s.keyState k true } ∧
      handleKeyUp k s = { s with keyState := kvSet s.keyState k false } ∧
      kvGet (handleKeyDown k s).keyState k = some true ∧
      kvGet (handleKeyUp k s).keyState k = some false) := by
  constructor
  · intro h; simp [handleKeyDown, handleKeyUp, h]
  · intro h; simp [handleKeyDown, handleKeyUp, h, kvGet_kvSet]

/-- Witness for C10 with a key outside the virtual-keypad vocabulary,
at a stopped state and a running state. -/
theorem keyHandlers_effect_witness :
    handleKeyDown "KeyQ" coreLoaded = coreLoaded ∧
    kvGet (handleKeyDown "KeyQ" coreRunning).keyState "KeyQ" = some true :=
  ⟨((keyHandlers_effect coreLoaded "KeyQ").1 (by decide)).1,
   ((keyHandlers_effect coreRunning "KeyQ").2 (by decide)).2.2.1⟩

/-! ### C1: failure rollback of the launch sequence (amended) -/

/-- C1 counterexample: launching from an initialized idle core where the
JAR read fails surfaces the failure, yet the `jarFile` handle is still
held afterwards (`loadJarFile` stores it before the read and no failure
path clears it), so not every partially-acquired resource is released. -/
theorem launch_failure_retains_jar_counterexample :
    (launchApp (some [demoRecord]) [("j2me-loader/apps/Game.jar", ⟨"Game.jar", false⟩)]
        [] "app_demo_1" coreReady).2 = .error "Failed to read JAR file" ∧
    (launchApp (some [demoRecord]) [("j2me-loader/apps/Game.jar", ⟨"Game.jar", false⟩)]
        [] "app_demo_1" coreReady).1.jarFile ≠ none := by decide

/-- C1 (amended): when a launch started while the core is not running
(no frame interval active) fails at any step, after the failure is
surfaced the running flag is still false and no frame interval is
active; the package handles, however, are not released on the failure
paths (see the counterexample). -/
theorem launch_failure_partial_rollback (db : Option Catalog) (jars : JarStore)
    (config : FileStore) (appId : String) (core : EmulatorCoreState)
    (hrun : core.running = false) (hfi : core.frameInterval = none)
    (e : String) (h : (launchApp db jars config appId core).2 = .error e) :
    (launchApp db jars config appId core).1.running = false ∧
    (launchApp db jars config appId core).1.frameInterval = none := by
  cases hga : getAppData db appId with
  | error e0 => simp [launchApp, hga, hrun, hfi]
  | ok record =>
      cases hj : jarGet jars record.path with
      | none => simp [launchApp, hga, hj, hrun, hfi]
      | some jar =>
          have hf := loadJarFile_frame jar core
          rcases hl : loadJarFile jar core with ⟨core1, r1⟩
          rw [hl] at hf
          simp only at hf
          cases r1 with
          | error e1 => simp [launchApp, hga, hj, hl, hf.1, hf.2, hrun, hfi]
          | ok mi =>
              cases hs : loadAppSettings config appId with
              | error e2 =>
                  simp [launchApp, hga, hj, hl, hs, hf.1, hf.2, hrun, hfi]
              | ok st =>
                  have heq : launchApp db jars config appId core
                      = startEmulator ⟨none, none, none⟩ core1 := by
                    simp [launchApp, hga, hj, hl, hs]
                  rw [heq] at h ⊢
                  have he := startEmulator_err ⟨none, none, none⟩ core1 e h
                  exact ⟨he.1.trans (hf.1.trans hrun),
                         he.2.trans (hf.2.trans hfi)⟩

/-- Witness for C1 at the failing JAR read. -/
theorem launch_failure_partial_rollback_witness :
    (launchApp (some [demoRecord]) [("j2me-loader/apps/Game.jar", ⟨"Game.jar", false⟩)]
        [] "app_demo_1" coreReady).1.running = false ∧
    (launchApp (some [demoRecord]) [("j2me-loader/apps/Game.jar", ⟨"Game.jar", false⟩)]
        [] "app_demo_1" coreReady).1.frameInterval = none :=
  launch_failure_partial_rollback (some [demoRecord])
    [("j2me-loader/apps/Game.jar", ⟨"Game.jar", false⟩)] [] "app_demo_1" coreReady
    (by decide) (by decide) "Failed to read JAR file" (by decide)

/-! ### C6: launching an id absent from the catalog -/

/-- C6: for an id with no record in the catalog, the launch pipeline
rejects with the not-found error and the emulator-core state is exactly
as before: the running flag, the frame interval and the package handle
are untouched. -/
theorem launch_absent_id_notfound (cat : Catalog) (jars : JarStore)
    (config : FileStore) (appId : String) (core : EmulatorCoreState)
    (habs : cat.find? (fun r => r.id = appId) = none) :
    launchApp (some cat) jars config appId core
      = (core, .error ("App not found: " ++ appId)) ∧
    (launchApp (some cat) jars config appId core).1.running = core.running ∧
    (launchApp (some cat) jars config appId core).1.frameInterval
      = core.frameInterval ∧
    (launchApp (some cat) jars config appId core).1.jarFile = core.jarFile := by
  have hga : getAppData (some cat) appId
      = .error ("App not found: " ++ appId) := by
    simp [getAppData, habs]
  simp [launchApp, hga]

/-- Witness for C6 at an id absent from a one-record catalog. -/
theorem launch_absent_id_notfound_witness :
    launchApp (some [demoRecord]) [] [] "app_missing" initialCoreState
      = (initialCoreState, .error "App not found: app_missing") :=
  (launch_absent_id_notfound [demoRecord] [] [] "app_missing" initialCoreState
    (by decide)).1

/-! ### Store lemmas for the settings claims -/

/-- After filtering a path out of the store, looking that path up
yields nothing. -/
theorem storeGet_filter_self (store : FileStore) (path : String) :
    storeGet (store.filter fun e => !(e.1 = path)) path = none := by
  induction store with
  | nil => rfl
  | cons p rest ih =>
      obtain ⟨p1, b⟩ := p
      by_cases h : p1 = path
      · simpa [List.filter_cons, h] using ih
      · simp [List.filter_cons, h, storeGet, ih]

/-- Filtering a path out of the store leaves every other lookup
unchanged. -/
theorem storeGet_filter_ne (store : FileStore) (path q : String)
    (hq : q ≠ path) :
    storeGet (store.filter fun e => !(e.1 = path)) q = storeGet store q := by
  induction store with
  | nil => rfl
  | cons p rest ih =>
      obtain ⟨p1, b⟩ := p
      have h4 : ¬path = q := fun hh => hq hh.symm
      by_cases h : p1 = path
      · have h2 : ¬p1 = q := by rw [h]; exact fun hh => hq hh.symm
        simp [List.filter_cons, h, storeGet, h2, h4, ih]
      · by_cases h3 : p1 = q
        · simp [List.filter_cons, h, storeGet, h3, hq, ih]
        · simp [List.filter_cons, h, storeGet, h3, ih]

/-- With a cooperating host (both the pre-delete and the write succeed),
`saveAppSettings` always resolves and the settings file holds exactly
the new value. -/
theorem saveAppSettings_ok (store : FileStore) (appId : String)
    (v : SettingsObj) :
    (saveAppSettings store appId v true true).2 = .ok () ∧
    storeGet (saveAppSettings store appId v true true).1 (configPath appId)
      = some (.json v) := by
  cases h : storeGet store (configPath appId) with
  | none => simp [saveAppSettings, deleteFile, addNamed, h, storeGet]
  | some b =>
      simp [saveAppSettings, deleteFile, addNamed, h, storeGet_filter_self,
            storeGet]

/-! ### C4: saveAppSettings is a full replace, but not failure-atomic -/

/-- A config store holding one previously saved settings record. -/
def priorStore : FileStore :=
  [(configPath "app_demo_1", .json getDefaultSettings)]

/-- C4 counterexample: with a prior record persisted, a save whose
write step fails (after the delete step succeeded) rejects and leaves
no record at all — the prior persisted record is not left intact. -/
theorem save_failure_loses_prior_counterexample :
    (saveAppSettings priorStore "app_demo_1"
        { getDefaultSettings with fontSize := "large" } true false).2
      = .error "Failed to save settings for app: app_demo_1" ∧
    storeGet (saveAppSettings priorStore "app_demo_1"
        { getDefaultSettings with fontSize := "large" } true false).1
        (configPath "app_demo_1") = none := by decide

/-- C4 (amended): a successful save persists exactly the new value
(full replace, no merge), other apps' records are never touched, and
saving twice leaves exactly the second value; but a failed save is not
atomic: the store is left either with the prior record (when the
pre-delete failed) or with no record at all (when the pre-delete
succeeded and the write then failed). -/
theorem saveAppSettings_replace (store : FileStore) (appId : String)
    (v : SettingsObj) (dOk aOk : Bool) :
    ((saveAppSettings store appId v dOk aOk).2 = .ok () →
      storeGet (saveAppSettings store appId v dOk aOk).1 (configPath appId)
        = some (.json v)) ∧
    (∀ q, q ≠ configPath appId →
      storeGet (saveAppSettings store appId v dOk aOk).1 q = storeGet store q) ∧
    (∀ v2, (saveAppSettings (saveAppSettings store appId v true true).1 appId v2
        true true).2 = .ok () ∧
      storeGet (saveAppSettings (saveAppSettings store appId v true true).1 appId
        v2 true true).1 (configPath appId) = some (.json v2)) ∧
    ((saveAppSettings store appId v dOk aOk).2 ≠ .ok () →
      storeGet (saveAppSettings store appId v dOk aOk).1 (configPath appId)
          = storeGet store (configPath appId) ∨
      storeGet (saveAppSettings store appId v dOk aOk).1 (configPath appId)
          = none) := by
  refine ⟨?_, ?_, fun v2 => saveAppSettings_ok _ appId v2, ?_⟩
  · cases dOk <;> cases aOk <;>
      cases h : storeGet store (configPath appId) <;>
        simp [saveAppSettings, deleteFile, addNamed, h, storeGet,
              storeGet_filter_self]
  · intro q hq
    have hq' : ¬configPath appId = q := fun hh => hq hh.symm
    cases dOk <;> cases aOk <;>
      cases h : storeGet store (configPath appId) <;>
        simp [saveAppSettings, deleteFile, addNamed, h, storeGet, hq',
              storeGet_filter_self, storeGet_filter_ne store (configPath appId) q hq]
  · intro hfail
    cases dOk <;> cases aOk <;>
      cases h : storeGet store (configPath appId) <;>
        simp_all [saveAppSettings, deleteFile, addNamed, storeGet,
                  storeGet_filter_self]

/-- Witness for C4: a succeeding save persists the value and leaves
other paths alone; a save failing after the pre-delete leaves the prior
record gone. -/
theorem saveAppSettings_replace_witness :
    storeGet (saveAppSettings [] "app_demo_1" getDefaultSettings true true).1
        (configPath "app_demo_1") = some (.json getDefaultSettings) ∧
    storeGet (saveAppSettings [] "app_demo_1" getDefaultSettings true true).1
        "other" = storeGet ([] : FileStore) "other" ∧
    (storeGet (saveAppSettings priorStore "app_demo_1"
        { getDefaultSettings with fontSize := "large" } true false).1
        (configPath "app_demo_1") = storeGet priorStore (configPath "app_demo_1") ∨
     storeGet (saveAppSettings priorStore "app_demo_1"
        { getDefaultSettings with fontSize := "large" } true false).1
        (configPath "app_demo_1") = none) :=
  ⟨(saveAppSettings_replace [] "app_demo_1" getDefaultSettings true true).1
      (by decide),
   (saveAppSettings_replace [] "app_demo_1" getDefaultSettings true true).2.1
      "other" (by decide),
   (saveAppSettings_replace priorStore "app_demo_1"
      { getDefaultSettings with fontSize := "large" } true false).2.2.2
      (by decide)⟩

/-! ### C5: loadAppSettings and the default-on-missing policy -/

/-- C5 counterexample: when a settings record exists whose content does
not parse as JSON, `loadAppSettings` rejects — it is not failure-free
for every store state. -/
theorem loadAppSettings_parse_failure_counterexample :
    loadAppSettings [(configPath "app_demo_1", .malformed "corrupt")]
        "app_demo_1"
      = .error "Failed to parse settings for app: app_demo_1" := by decide

/-- C5 (amended): when no record exists, `loadAppSettings` resolves with
exactly the documented default object (never an error); when a record
parses to `v` it resolves with `v`; in particular loading right after
any successful save returns the saved value.  Only an existing record
whose content fails to parse makes it reject. -/
theorem loadAppSettings_default_on_missing (store : FileStore) (appId : String) :
    (storeGet store (configPath appId) = none →
      loadAppSettings store appId = .ok
        { screenSize := "original", orientation := "auto", fontSize := "medium",
          soundEnabled := true, keyMapping := getDefaultKeyMapping }) ∧
    (∀ v, storeGet store (configPath appId) = some (.json v) →
      loadAppSettings store appId = .ok v) ∧
    (∀ v, loadAppSettings (saveAppSettings store appId v true true).1 appId
      = .ok v) := by
  refine ⟨?_, ?_, ?_⟩
  · intro h; simp [loadAppSettings, h, getDefaultSettings]
  · intro v h; simp [loadAppSettings, h]
  · intro v
    have hs := (saveAppSettings_ok store appId v).2
    simp [loadAppSettings, hs]

/-- Witness for C5 on an empty store and on a store with one saved
record. -/
theorem loadAppSettings_default_on_missing_witness :
    loadAppSettings [] "app_demo_1" = .ok
      { screenSize := "original", orientation := "auto", fontSize := "medium",
        soundEnabled := true, keyMapping := getDefaultKeyMapping } ∧
    loadAppSettings priorStore "app_demo_1" = .ok getDefaultSettings :=
  ⟨(loadAppSettings_default_on_missing [] "app_demo_1").1 (by decide),
   (loadAppSettings_default_on_missing priorStore "app_demo_1").2.1
      getDefaultSettings (by decide)⟩

/-! ### C7: bootstrap -/

/-- The bootstrap result is exactly the `Promise.all` settlement. -/
theorem initApp_snd (a b c : SubsysOutcome) :
    (initApp a b c).2 = promiseAll3 a b c := by
  cases h : promiseAll3 a b c with
  | ok u => cases u; simp [initApp, h]
  | error e => simp [initApp, h]

/-- A fulfilled outcome contributes no failure. -/
theorem failOf_none_iff (o : SubsysOutcome) : failOf o = none ↔ o.ok = true := by
  cases hr : o.result <;> simp [failOf, SubsysOutcome.ok, hr]

/-- A rejected outcome's failure carries its settlement time. -/
theorem failOf_time (o : SubsysOutcome) (p : Nat × String)
    (h : failOf o = some p) : p.1 = o.time := by
  cases hr : o.result with
  | ok u => simp [failOf, hr] at h
  | error e0 =>
      simp [failOf, hr] at h
      rw [← h]

/-- `earlierFail` yields nothing iff neither side failed. -/
theorem earlierFail_none_iff (x y : Option (Nat × String)) :
    earlierFail x y = none ↔ x = none ∧ y = none := by
  cases x with
  | none => cases y <;> simp [earlierFail]
  | some p =>
      cases y with
      | none => simp [earlierFail]
      | some q =>
          simp only [earlierFail]
          split <;> simp

/-- The failure `earlierFail` picks is one of its two arguments. -/
theorem earlierFail_some_cases (x y : Option (Nat × String))
    (p : Nat × String) (h : earlierFail x y = some p) :
    x = some p ∨ y = some p := by
  cases x with
  | none => right; simpa [earlierFail] using h
  | some a =>
      cases y with
      | none => left; simpa [earlierFail] using h
      | some b =>
          simp only [earlierFail] at h
          split at h
          · left; exact h
          · right; exact h

/-- `Promise.all` fulfils exactly when all three subsystem
initializations fulfil. -/
theorem promiseAll3_ok_iff (a b c : SubsysOutcome) :
    promiseAll3 a b c = .ok () ↔
      (a.ok = true ∧ b.ok = true ∧ c.ok = true) := by
  have key : promiseAll3 a b c = .ok () ↔
      earlierFail (failOf a) (earlierFail (failOf b) (failOf c)) = none := by
    unfold promiseAll3
    cases h : earlierFail (failOf a) (earlierFail (failOf b) (failOf c)) with
    | none => simp [h]
    | some p => simp [h]
  rw [key, earlierFail_none_iff, earlierFail_none_iff,
      failOf_none_iff, failOf_none_iff, failOf_none_iff]

/-- When the first subsystem fails no later than the others settle,
`Promise.all` rejects with its error. -/
theorem promiseAll3_first_a (a b c : SubsysOutcome) (e : String)
    (ha : a.result = .error e) (h1 : a.time ≤ b.time) (h2 : a.time ≤ c.time) :
    promiseAll3 a b c = .error e := by
  have hfa : failOf a = some (a.time, e) := by simp [failOf, ha]
  unfold promiseAll3
  cases hbc : earlierFail (failOf b) (failOf c) with
  | none => simp [earlierFail, hfa]
  | some p =>
      have hpt : p.1 = b.time ∨ p.1 = c.time := by
        rcases earlierFail_some_cases _ _ _ hbc with h | h
        · exact Or.inl (failOf_time b p h)
        · exact Or.inr (failOf_time c p h)
      have hle : a.time ≤ p.1 := by rcases hpt with h | h <;> rw [h] <;> assumption
      simp [earlierFail, hfa, hle]

/-- When the second subsystem fails strictly before the first (or the
first fulfils) and no later than the third, `Promise.all` rejects with
its error. -/
theorem promiseAll3_first_b (a b c : SubsysOutcome) (e : String)
    (hb : b.result = .error e) (h1 : a.ok = true ∨ b.time < a.time)
    (h2 : b.time ≤ c.time) :
    promiseAll3 a b c = .error e := by
  have hfb : failOf b = some (b.time, e) := by simp [failOf, hb]
  have hinner : earlierFail (failOf b) (failOf c) = some (b.time, e) := by
    cases hfc : failOf c with
    | none => simp [earlierFail, hfb, hfc]
    | some pc =>
        have hpc : pc.1 = c.time := failOf_time c pc hfc
        have : b.time ≤ pc.1 := by omega
        simp [earlierFail, hfb, hfc, this]
  unfold promiseAll3
  rw [hinner]
  cases hfa : failOf a with
  | none => simp [earlierFail]
  | some pa =>
      have hpa : pa.1 = a.time := failOf_time a pa hfa
      have hlt : b.time < a.time := by
        rcases h1 with hok | hlt
        · exact absurd hfa (by simp [(failOf_none_iff a).2 hok])
        · exact hlt
      have hna : ¬pa.1 ≤ b.time := by omega
      simp [earlierFail, hna]

/-- When the third subsystem fails strictly before each of the other
two (or they fulfil), `Promise.all` rejects with its error. -/
theorem promiseAll3_first_c (a b c : SubsysOutcome) (e : String)
    (hc : c.result = .error e) (h1 : a.ok = true ∨ c.time < a.time)
    (h2 : b.ok = true ∨ c.time < b.time) :
    promiseAll3 a b c = .error e := by
  have hfc : failOf c = some (c.time, e) := by simp [failOf, hc]
  have hinner : earlierFail (failOf b) (failOf c) = some (c.time, e) := by
    cases hfb : failOf b with
    | none => simp [earlierFail, hfb, hfc]
    | some pb =>
        have hpb : pb.1 = b.time := failOf_time b pb hfb
        have hltb : c.time < b.time := by
          rcases h2 with hok | hlt
          · exact absurd hfb (by simp [(failOf_none_iff b).2 hok])
          · exact hlt
        have hnb : ¬pb.1 ≤ c.time := by omega
        simp [earlierFail, hfb, hfc, hnb]
  unfold promiseAll3
  rw [hinner]
  cases hfa : failOf a with
  | none => simp [earlierFail]
  | some pa =>
      have hpa : pa.1 = a.time := failOf_time a pa hfa
      have hlt : c.time < a.time := by
        rcases h1 with hok | hlt
        · exact absurd hfa (by simp [(failOf_none_iff a).2 hok])
        · exact hlt
      have hna : ¬pa.1 ≤ c.time := by omega
      simp [earlierFail, hna]

/-- C7: bootstrap runs all three subsystem initializations (each is
attempted and its own readiness reflects only its own outcome,
regardless of the others), fulfils iff all three fulfil, sets the
process-wide readiness flag `isInitialized` exactly on overall success,
and on failure surfaces the earliest subsystem error. -/
theorem initApp_bootstrap (a b c : SubsysOutcome) :
    ((initApp a b c).1.storageAttempted = true ∧
     (initApp a b c).1.dbAttempted = true ∧
     (initApp a b c).1.coreAttempted = true) ∧
    ((initApp a b c).1.storageReady = a.ok ∧
     (initApp a b c).1.dbReady = b.ok ∧
     (initApp a b c).1.coreReady = c.ok) ∧
    ((initApp a b c).2 = .ok () ↔
      (a.ok = true ∧ b.ok = true ∧ c.ok = true)) ∧
    ((initApp a b c).1.isInitialized = true ↔ (initApp a b c).2 = .ok ()) ∧
    (∀ e, a.result = .error e → a.time ≤ b.time → a.time ≤ c.time →
      (initApp a b c).2 = .error e) ∧
    (∀ e, b.result = .error e → (a.ok = true ∨ b.time < a.time) →
      b.time ≤ c.time → (initApp a b c).2 = .error e) ∧
    (∀ e, c.result = .error e → (a.ok = true ∨ c.time < a.time) →
      (b.ok = true ∨ c.time < b.time) → (initApp a b c).2 = .error e) := by
  refine ⟨?_, ?_, ?_, ?_, ?_, ?_, ?_⟩
  · cases h : promiseAll3 a b c <;> simp [initApp, h]
  · cases h : promiseAll3 a b c <;> simp [initApp, h]
  · rw [initApp_snd]; exact promiseAll3_ok_iff a b c
  · cases h : promiseAll3 a b c <;> simp [initApp, h]
  · intro e he h1 h2
    rw [initApp_snd]; exact promiseAll3_first_a a b c e he h1 h2
  · intro e he h1 h2
    rw [initApp_snd]; exact promiseAll3_first_b a b c e he h1 h2
  · intro e he h1 h2
    rw [initApp_snd]; exact promiseAll3_first_c a b c e he h1 h2

/-- Witness for C7: an all-success bootstrap, and one where only the
settings/storage subsystem fails first — its error is surfaced while
the other two subsystems were still attempted and came up. -/
theorem initApp_bootstrap_witness :
    (initApp ⟨0, .ok ()⟩ ⟨1, .ok ()⟩ ⟨2, .ok ()⟩).1.isInitialized = true ∧
    (initApp ⟨0, .error "DeviceStorage API not available"⟩ ⟨1, .ok ()⟩
        ⟨2, .ok ()⟩).2 = .error "DeviceStorage API not available" ∧
    (initApp ⟨0, .error "DeviceStorage API not available"⟩ ⟨1, .ok ()⟩
        ⟨2, .ok ()⟩).1.dbAttempted = true ∧
    (initApp ⟨0, .error "DeviceStorage API not available"⟩ ⟨1, .ok ()⟩
        ⟨2, .ok ()⟩).1.coreReady = true :=
  ⟨((initApp_bootstrap ⟨0, .ok ()⟩ ⟨1, .ok ()⟩ ⟨2, .ok ()⟩).2.2.2.1).2
      (((initApp_bootstrap ⟨0, .ok ()⟩ ⟨1, .ok ()⟩ ⟨2, .ok ()⟩).2.2.1).2
        ⟨by decide, by decide, by decide⟩),
   (initApp_bootstrap ⟨0, .error "DeviceStorage API not available"⟩ ⟨1, .ok ()⟩
      ⟨2, .ok ()⟩).2.2.2.2.1 "DeviceStorage API not available"
      (by decide) (by decide) (by decide),
   ((initApp_bootstrap ⟨0, .error "DeviceStorage API not available"⟩ ⟨1, .ok ()⟩
      ⟨2, .ok ()⟩).1).2.1,
   by
     have hready := (initApp_bootstrap ⟨0, .error "DeviceStorage API not available"⟩
        ⟨1, .ok ()⟩ ⟨2, .ok ()⟩).2.1
     exact hready.2.2.trans (by decide)⟩

/-! ### C8: deleteApp deletes the record first, tolerates blob failure -/

/-- C8: when the catalog-record deletion fails, no blob deletion is
attempted (the JAR store is untouched) and the operation errors; when
the record deletion succeeds, the blob deletion is attempted only
afterwards (the event trace shows the order), a blob-deletion failure
neither restores the record nor aborts the operation, which still
resolves and refreshes the app list from the updated catalog. -/
theorem deleteApp_record_first (cat : Catalog) (jars : JarStore)
    (appList : List PackageRecord) (sel : Int) (appId : String)
    (r : PackageRecord) (fileOk : Bool)
    (hfind : cat.find? (fun x => x.id = appId) = some r)
    (hpath : r.path ≠ "") :
    ((deleteApp (some cat) jars appList sel appId false fileOk).events
        = [.gotRecord appId] ∧
     (deleteApp (some cat) jars appList sel appId false fileOk).jars = jars ∧
     (deleteApp (some cat) jars appList sel appId false fileOk).db = some cat ∧
     (deleteApp (some cat) jars appList sel appId false fileOk).result
        = .error ("Failed to delete app data for: " ++ appId)) ∧
    ((deleteApp (some cat) jars appList sel appId true fileOk).events
        = [.gotRecord appId, .recordDeleted appId, .blobDeleteAttempted r.path,
           if (jarGet jars r.path).isSome && fileOk then .blobDeleted r.path
           else .blobDeleteFailed r.path] ∧
     (deleteApp (some cat) jars appList sel appId true fileOk).db
        = some (cat.filter fun x => !(x.id = appId)) ∧
     (deleteApp (some cat) jars appList sel appId true fileOk).result
        = .ok () ∧
     (deleteApp (some cat) jars appList sel appId true fileOk).appList
        = sortByName (cat.filter fun x => !(x.id = appId)) ∧
     (fileOk = false →
       (deleteApp (some cat) jars appList sel appId true fileOk).jars
         = jars)) := by
  have hga : getAppData (some cat) appId = .ok r := by
    simp [getAppData, hfind]
  constructor
  · simp [deleteApp, hga, deleteAppData]
  · cases hcond : (jarGet jars r.path).isSome && fileOk with
    | false =>
        refine ⟨?_, ?_, ?_, ?_, fun _ => ?_⟩ <;>
          simp [deleteApp, hga, deleteAppData, hpath, deleteJarFile, hcond,
                loadInstalledApps, getAllApps]
    | true =>
        refine ⟨?_, ?_, ?_, ?_, fun hf => ?_⟩
        · simp [deleteApp, hga, deleteAppData, hpath, deleteJarFile, hcond,
                loadInstalledApps, getAllApps]
        · simp [deleteApp, hga, deleteAppData, hpath, deleteJarFile, hcond,
                loadInstalledApps, getAllApps]
        · simp [deleteApp, hga, deleteAppData, hpath, deleteJarFile, hcond,
                loadInstalledApps, getAllApps]
        · simp [deleteApp, hga, deleteAppData, hpath, deleteJarFile, hcond,
                loadInstalledApps, getAllApps]
        · rw [hf] at hcond
          simp at hcond

/-- Witness for C8 with the demo catalog record and a failing blob
deletion. -/
theorem deleteApp_record_first_witness :
    (deleteApp (some [demoRecord]) [(demoRecord.path, demoJar)]
        (sortByName [demoRecord]) 0 "app_demo_1" true false).events
      = [.gotRecord "app_demo_1", .recordDeleted "app_demo_1",
         .blobDeleteAttempted demoRecord.path,
         if (jarGet [(demoRecord.path, demoJar)] demoRecord.path).isSome && false
         then .blobDeleted demoRecord.path
         else .blobDeleteFailed demoRecord.path] ∧
    (deleteApp (some [demoRecord]) [(demoRecord.path, demoJar)]
        (sortByName [demoRecord]) 0 "app_demo_1" true false).result = .ok () :=
  ⟨(deleteApp_record_first [demoRecord] [(demoRecord.path, demoJar)]
      (sortByName [demoRecord]) 0 "app_demo_1" demoRecord false
      (by decide) (by decide)).2.1,
   (deleteApp_record_first [demoRecord] [(demoRecord.path, demoJar)]
      (sortByName [demoRecord]) 0 "app_demo_1" demoRecord false
      (by decide) (by decide)).2.2.2.1⟩

end J2MELoader
